import Mathlib

/-!
Verification development for an OpenCL matrix-multiplication driver
(`multiplication_deux_matrices.c`).

The program multiplies two fixed-size 512 x 512 matrices on a GPU.  We embed:

* the embedded kernel `matmul` (its per-work-item accumulation loop and its
  index expressions),
* the host-side random fill `A[i] = rand() % 100; B[i] = rand() % 100;`,
* the linear sequence of compute-API calls issued by `main`, together with the
  `checkError` early-exit discipline, the special failure branch for
  `clBuildProgram`, the unchecked release calls and the host `free`s,
* the blocking flags passed to the enqueue calls, and the command-queue
  creation properties.

Machine floats never appear: all matrix entries produced by the fill are exact
small integers, so the kernel arithmetic is modelled over `Int`, and the
floating-point accumulation is modelled as the same fold with an arbitrary
rounding map applied after each multiply and each add; a rounding map that
fixes every integer below 2 ^ 24 (as binary32 correct rounding does) is shown
to leave the accumulation exact.
-/

set_option autoImplicit false

namespace OpenCLMatmul

/-! ### Sizes and index expressions (kernel source, lines 9-18 of the C file) -/

/-- MATRIX_SIZE from the C source: `#define MATRIX_SIZE 512`. -/
def MATRIX_SIZE : Nat := 512

/-- Index expression `row * N + k` used to read `A` inside the kernel loop. -/
def aIndex (row N k : Nat) : Nat := row * N + k

/-- Index expression `k * N + col` used to read `B` inside the kernel loop. -/
def bIndex (k N col : Nat) : Nat := k * N + col

/-- Index expression `row * N + col` used to write `C` at the end of the kernel. -/
def cIndex (row N col : Nat) : Nat := row * N + col

/-- Per-work-item computation of the kernel `matmul`: starting from
`sum = 0.0`, the loop `for (k = 0; k < N; k++) sum += A[row*N+k] * B[k*N+col];`
accumulates the dot product; the entries are exact integers (see the fill
below), so the loop is modelled over `Int`. -/
def matmulWorkItem (A B : Nat → Int) (N row col : Nat) : Int :=
  (List.range N).foldl (fun sum k => sum + A (aIndex row N k) * B (bIndex k N col)) 0

/-- Reference oracle named by the spec: the straightforward mathematical sum
over `k` in `[0, N)` of `A[i,k] * B[k,j]` for output cell `(i, j)`. -/
def referenceCell (A B : Nat → Int) (N i j : Nat) : Int :=
  Finset.sum (Finset.range N) (fun k => A (i * N + k) * B (k * N + j))

/-- Contents of the output buffer after the kernel launch over the `N x N`
global index space: the work item with `get_global_id(1) = idx / N` and
`get_global_id(0) = idx % N` is the unique one whose write `C[row*N+col]`
targets offset `idx` (uniqueness is proved below); offsets outside the buffer
are never written and are modelled as `0`. -/
def bufferAfterLaunch (A B : Nat → Int) (N idx : Nat) : Int :=
  if idx < N * N then matmulWorkItem A B N (idx / N) (idx % N) else 0

/-! ### Host-side random fill (C file, lines 37-41)

The loop body is `A[i] = rand() % 100; B[i] = rand() % 100;`, so `A[i]` is the
`2*i`-th and `B[i]` the `2*i+1`-th value of the `rand()` call stream, reduced
mod 100 and converted exactly to `float`. -/

/-- Value stored into `A[i]` by the fill loop, given the `rand()` call stream. -/
def fillA (r : Nat → Nat) (i : Nat) : Nat := r (2 * i) % 100

/-- Value stored into `B[i]` by the fill loop, given the `rand()` call stream. -/
def fillB (r : Nat → Nat) (i : Nat) : Nat := r (2 * i + 1) % 100

/-- Matrix `A` viewed with integer entries (the `int -> float` conversion of
values below 100 is exact). -/
def intA (r : Nat → Nat) : Nat → Int := fun i => (fillA r i : Int)

/-- Matrix `B` viewed with integer entries. -/
def intB (r : Nat → Nat) : Nat → Int := fun i => (fillB r i : Int)

/-- Modelled from the spec: the C library generator `rand`, which is not part
of this repository.  ISO C specifies only that the generator is deterministic
in its seed and that, when `srand` is never called (as here: the source
contains no `srand` call), the sequence is the one obtained after `srand(1)`.
A concrete linear congruential step stands in for the unspecified algorithm;
nothing below depends on its constants, only on determinism. -/
def cRandNext (s : Nat) : Nat := (s * 1103515245 + 12345) % 2 ^ 31

/-- Modelled from the spec: the hidden generator state before the `n`-th
`rand()` call; the program never calls `srand`, so the initial state is the
ISO-C default seed 1. -/
def cRandState : Nat → Nat
  | 0 => 1
  | n + 1 => cRandNext (cRandState n)

/-- Modelled from the spec: the value returned by the `n`-th `rand()` call of
an execution in which `srand` is never called. -/
def cRand (n : Nat) : Nat := cRandState (n + 1)

/-! ### Floating-point accumulation model (kernel source, line 15)

`sum += A[...] * B[...]` performs one binary32 multiply and one binary32 add
per iteration.  Correct rounding maps every representable value to itself, and
every integer of magnitude below `2 ^ 24` is representable in binary32, so the
whole accumulation is modelled as the exact fold with an arbitrary map `rnd`
applied after each multiply and each add; `rnd` is only assumed to fix the
integers in `[0, 2 ^ 24)`. -/

/-- The kernel accumulation with a rounding map `rnd` applied to the result of
each multiplication and each addition, as binary32 evaluation does. -/
def fpFold (rnd : Int → Int) (A B : Nat → Int) (N row col : Nat) : Int :=
  (List.range N).foldl
    (fun sum k => rnd (sum + rnd (A (aIndex row N k) * B (bIndex k N col)))) 0

/-! ### The driver procedure as a step sequence (C file, `main`) -/

/-- The compute-API calls issued by `main`, in program order, plus the final
host `free`s. -/
inductive ApiOp
  | getPlatformIDs
  | getDeviceIDs
  | createContext
  | createCommandQueue
  | createBufferA
  | createBufferB
  | createBufferC
  | writeBufferA
  | writeBufferB
  | createProgramWithSource
  | buildProgram
  | getProgramBuildInfo
  | createKernel
  | setKernelArg0
  | setKernelArg1
  | setKernelArg2
  | setKernelArg3
  | enqueueNDRangeKernel
  | readBufferC
  | releaseBufferA
  | releaseBufferB
  | releaseBufferC
  | releaseKernel
  | releaseProgram
  | releaseQueue
  | releaseContext
  | freeA
  | freeB
  | freeC
  deriving DecidableEq

/-- The operation label passed to `checkError` for each checked call (the
string literals of the C source). -/
def opName : ApiOp → String
  | .getPlatformIDs => "Getting platform"
  | .getDeviceIDs => "Getting device"
  | .createContext => "Creating context"
  | .createCommandQueue => "Creating command queue"
  | .createBufferA => "Creating buffer A"
  | .createBufferB => "Creating buffer B"
  | .createBufferC => "Creating buffer C"
  | .writeBufferA => "Copying A to device"
  | .writeBufferB => "Copying B to device"
  | .createProgramWithSource => "Creating program"
  | .createKernel => "Creating kernel"
  | .setKernelArg0 => "Setting kernel arg 0"
  | .setKernelArg1 => "Setting kernel arg 1"
  | .setKernelArg2 => "Setting kernel arg 2"
  | .setKernelArg3 => "Setting kernel arg 3"
  | .enqueueNDRangeKernel => "Enqueueing kernel"
  | .readBufferC => "Reading result"
  | _ => ""

/-- The single line `checkError` prints to standard error on a non-success
status: `fprintf(stderr, "Error during operation '%s': %d\n", operation, err)`. -/
def errLine (op : ApiOp) (code : Int) : String :=
  "Error during operation \x27" ++ opName op ++ "\x27: " ++ toString code

/-- The message the `clBuildProgram` failure branch prints to standard error:
`fprintf(stderr, "CL Compilation failed:\n%s\n", buffer)` where `buffer` holds
the build log. -/
def buildFailMsg (log : String) : String :=
  "CL Compilation failed:\n" ++ log ++ "\n"

/-- Environment of one execution: the status code each compute-API call would
return (`0` is `CL_SUCCESS`), and the build log the runtime would report. -/
structure Env where
  status : ApiOp → Int
  buildLog : String

/-- One step of `main`: a call followed by `checkError`, the `clBuildProgram`
call with its special failure branch, or a call whose status is ignored
(the release calls and the host `free`s). -/
inductive Step
  | checkedCall : ApiOp → Step
  | buildStep : Step
  | uncheckedCall : ApiOp → Step
  deriving DecidableEq

/-- The API calls a step performs when reached and successful. -/
def stepOps : Step → List ApiOp
  | .checkedCall op => [op]
  | .buildStep => [.buildProgram]
  | .uncheckedCall op => [op]

/-- The API calls a list of steps performs when all of them succeed. -/
def stepsOps (l : List Step) : List ApiOp := l.flatMap stepOps

/-- Whether a step lets control continue to the next step in the given
environment. -/
def stepSucceeds (env : Env) : Step → Prop
  | .checkedCall op => env.status op = 0
  | .buildStep => env.status .buildProgram = 0
  | .uncheckedCall _ => True

instance (env : Env) (s : Step) : Decidable (stepSucceeds env s) := by
  cases s <;> simp only [stepSucceeds] <;> infer_instance

/-- The checked calls of `main` preceding `clBuildProgram`, in program order. -/
def preBuildSteps : List Step :=
  [.checkedCall .getPlatformIDs, .checkedCall .getDeviceIDs,
   .checkedCall .createContext, .checkedCall .createCommandQueue,
   .checkedCall .createBufferA, .checkedCall .createBufferB,
   .checkedCall .createBufferC, .checkedCall .writeBufferA,
   .checkedCall .writeBufferB, .checkedCall .createProgramWithSource]

/-- The steps of `main` following `clBuildProgram`: the remaining checked
calls, then the unchecked release calls, then the host `free`s. -/
def postBuildSteps : List Step :=
  [.checkedCall .createKernel, .checkedCall .setKernelArg0,
   .checkedCall .setKernelArg1, .checkedCall .setKernelArg2,
   .checkedCall .setKernelArg3, .checkedCall .enqueueNDRangeKernel,
   .checkedCall .readBufferC,
   .uncheckedCall .releaseBufferA, .uncheckedCall .releaseBufferB,
   .uncheckedCall .releaseBufferC, .uncheckedCall .releaseKernel,
   .uncheckedCall .releaseProgram, .uncheckedCall .releaseQueue,
   .uncheckedCall .releaseContext,
   .uncheckedCall .freeA, .uncheckedCall .freeB, .uncheckedCall .freeC]

/-- The whole step sequence of `main`, in program order. -/
def clProgram : List Step := preBuildSteps ++ Step.buildStep :: postBuildSteps

/-- Result of running the step sequence: the API calls actually issued, the
messages printed to standard error, and `some 1` when `exit(1)` was reached. -/
structure RunResult where
  calls : List ApiOp
  stderrMsgs : List String
  earlyExit : Option Nat
  deriving DecidableEq

/-- Execution of the step sequence.  A checked call whose status is non-zero
prints one `checkError` line and exits with code 1, issuing no further call;
a failing `clBuildProgram` additionally queries the build log (one more API
call) and prints it; release calls and `free`s never stop execution. -/
def runSteps (env : Env) : List Step → RunResult
  | [] => ⟨[], [], none⟩
  | s :: rest =>
    match s with
    | .checkedCall op =>
      if env.status op = 0 then
        let r := runSteps env rest
        ⟨op :: r.calls, r.stderrMsgs, r.earlyExit⟩
      else
        ⟨[op], [errLine op (env.status op)], some 1⟩
    | .buildStep =>
      if env.status .buildProgram = 0 then
        let r := runSteps env rest
        ⟨.buildProgram :: r.calls, r.stderrMsgs, r.earlyExit⟩
      else
        ⟨[.buildProgram, .getProgramBuildInfo], [buildFailMsg env.buildLog], some 1⟩
    | .uncheckedCall op =>
      let r := runSteps env rest
      ⟨op :: r.calls, r.stderrMsgs, r.earlyExit⟩

/-- The values printed by the output loop on the success path: for `i` and `j`
in `[0, 10)`, row `i` of standard output holds `C[i * N + j]`, the top-left
10 x 10 sub-block of the result read back from the device. -/
def printedBlock (A B : Nat → Int) : List (List Int) :=
  (List.range 10).map (fun i =>
    (List.range 10).map (fun j => bufferAfterLaunch A B MATRIX_SIZE (cIndex i MATRIX_SIZE j)))

/-- Observable outcome of one execution of `main`. -/
structure ProcResult where
  calls : List ApiOp
  stderrMsgs : List String
  stdoutRows : List (List Int)
  exitCode : Nat
  deriving DecidableEq

/-- One execution of `main` with host input matrices `A` and `B`: run the step
sequence; on early exit nothing was printed to standard output; on the normal
path the 10 x 10 corner of the result is printed and `main` returns 0. -/
def run (env : Env) (A B : Nat → Int) : ProcResult :=
  let r := runSteps env clProgram
  match r.earlyExit with
  | some c => ⟨r.calls, r.stderrMsgs, [], c⟩
  | none => ⟨r.calls, r.stderrMsgs, printedBlock A B, 0⟩

/-- Environment in which every API call succeeds. -/
def allOkEnv : Env := ⟨fun _ => 0, ""⟩

/-- The API calls issued on the normal-completion path. -/
def successCalls : List ApiOp := (runSteps allOkEnv clProgram).calls

/-! ### Enqueue calls and their blocking arguments (C file, lines 73, 76, 114, 118) -/

/-- The four enqueue calls of `main`, in program order. -/
inductive EnqueueKind
  | writeA
  | writeB
  | ndrangeKernel
  | readC
  deriving DecidableEq

/-- The blocking argument each enqueue call passes: `clEnqueueWriteBuffer` and
`clEnqueueReadBuffer` receive `CL_TRUE` as their third argument in the source;
`clEnqueueNDRangeKernel` has no blocking parameter at all (`none`) and returns
without waiting for the kernel to finish. -/
def blockingArg : EnqueueKind → Option Bool
  | .writeA => some true
  | .writeB => some true
  | .ndrangeKernel => none
  | .readC => some true

/-- The enqueue calls in the order `main` issues them. -/
def hostEnqueues : List EnqueueKind :=
  [.writeA, .writeB, .ndrangeKernel, .readC]

/-- The properties argument of `clCreateCommandQueue(context, device, 0, &err)`:
`0`, i.e. no `CL_QUEUE_OUT_OF_ORDER_EXEC_MODE_ENABLE` bit, so the queue
executes its commands in order. -/
def queueProperties : Nat := 0

/-! ### API resources, their acquisition, use and release (C file, `main`) -/

/-- The API resources `main` handles. -/
inductive Res
  | platform
  | device
  | context
  | queue
  | bufA
  | bufB
  | bufC
  | program
  | kernel
  deriving DecidableEq

/-- The resources each API call takes as an argument (release calls are listed
separately by `releasesRes` and consume their resource). -/
def usesRes : ApiOp → List Res
  | .getPlatformIDs => []
  | .getDeviceIDs => [.platform]
  | .createContext => [.device]
  | .createCommandQueue => [.context, .device]
  | .createBufferA => [.context]
  | .createBufferB => [.context]
  | .createBufferC => [.context]
  | .writeBufferA => [.queue, .bufA]
  | .writeBufferB => [.queue, .bufB]
  | .createProgramWithSource => [.context]
  | .buildProgram => [.program, .device]
  | .getProgramBuildInfo => [.program, .device]
  | .createKernel => [.program]
  | .setKernelArg0 => [.kernel, .bufA]
  | .setKernelArg1 => [.kernel, .bufB]
  | .setKernelArg2 => [.kernel, .bufC]
  | .setKernelArg3 => [.kernel]
  | .enqueueNDRangeKernel => [.queue, .kernel]
  | .readBufferC => [.queue, .bufC]
  | _ => []

/-- The resource an API call releases, if any. -/
def releasesRes : ApiOp → Option Res
  | .releaseBufferA => some .bufA
  | .releaseBufferB => some .bufB
  | .releaseBufferC => some .bufC
  | .releaseKernel => some .kernel
  | .releaseProgram => some .program
  | .releaseQueue => some .queue
  | .releaseContext => some .context
  | _ => none

/-- The released resource an API call acquires, if any (the platform and the
device are obtained too but never released, so they are not listed). -/
def acquiresRes : ApiOp → Option Res
  | .createContext => some .context
  | .createCommandQueue => some .queue
  | .createBufferA => some .bufA
  | .createBufferB => some .bufB
  | .createBufferC => some .bufC
  | .createProgramWithSource => some .program
  | .createKernel => some .kernel
  | _ => none

/-! ### Two executions of the unseeded program -/

/-- First execution of the program: no `srand` call is made, so the `rand()`
stream is the default one mandated by ISO C; the environment is held fixed
between the runs ("no external state varying"). -/
def firstExecution : ProcResult := run allOkEnv (intA cRand) (intB cRand)

/-- Second execution of the program, under the same conditions. -/
def secondExecution : ProcResult := run allOkEnv (intA cRand) (intB cRand)

/-! ### Concrete environments used as witnesses -/

/-- Environment in which platform enumeration fails with
`CL_PLATFORM_NOT_FOUND_KHR` (-1001) and everything else would succeed. -/
def envPlatformFail : Env :=
  ⟨fun op => if op = ApiOp.getPlatformIDs then -1001 else 0, ""⟩

/-- Environment in which `clBuildProgram` fails with `CL_BUILD_PROGRAM_FAILURE`
(-11) and reports a diagnostic log. -/
def envBuildFail : Env :=
  ⟨fun op => if op = ApiOp.buildProgram then -11 else 0,
   "use of undeclared identifier"⟩

/-- The all-zero matrix, used to instantiate witnesses. -/
def zeroMat : Nat → Int := fun _ => 0

/-! ## Helper lemmas -/

/-- The kernel's accumulation loop computes the mathematical sum. -/
theorem foldl_add_eq_sum (f : Nat → Int) :
    ∀ n : Nat,
      (List.range n).foldl (fun s k => s + f k) 0 = Finset.sum (Finset.range n) f := by
  intro n
  induction n with
  | zero => simp
  | succ m ih =>
    rw [List.range_succ, List.foldl_append]
    simp [ih, Finset.sum_range_succ]

/-- Each work item of the kernel computes exactly the reference dot product. -/
theorem matmulWorkItem_eq_reference (A B : Nat → Int) (N i j : Nat) :
    matmulWorkItem A B N i j = referenceCell A B N i j :=
  foldl_add_eq_sum (fun k => A (aIndex i N k) * B (bIndex k N j)) N

/-- Invariant of the accumulation loop: when every term is a nonnegative
integer at most 9801 and the rounding map fixes the nonnegative integers up to
5018112, the rounded fold agrees with the exact fold, which stays nonnegative
and grows by at most 9801 per term. -/
theorem fpAccumAux (rnd : Int → Int)
    (hrnd : ∀ x : Int, 0 ≤ x → x ≤ 5018112 → rnd x = x)
    (f : Nat → Int) (hf : ∀ k, 0 ≤ f k ∧ f k ≤ 9801) :
    ∀ (l : List Nat) (acc : Int), 0 ≤ acc →
      acc + 9801 * (l.length : Int) ≤ 5018112 →
      l.foldl (fun s k => rnd (s + rnd (f k))) acc = l.foldl (fun s k => s + f k) acc ∧
      0 ≤ l.foldl (fun s k => s + f k) acc ∧
      l.foldl (fun s k => s + f k) acc ≤ acc + 9801 * (l.length : Int) := by
  intro l
  induction l with
  | nil =>
    intro acc h0 _
    simp
    exact h0
  | cons k l ih =>
    intro acc h0 hb
    obtain ⟨hk0, hk1⟩ := hf k
    simp only [List.length_cons] at hb
    push_cast at hb
    have hl0 : (0 : Int) ≤ (l.length : Int) := Int.natCast_nonneg _
    have h1 : rnd (f k) = f k := hrnd _ hk0 (by omega)
    have h2 : rnd (acc + f k) = acc + f k := hrnd _ (by omega) (by omega)
    have hstep := ih (acc + f k) (by omega) (by omega)
    obtain ⟨e1, e2, e3⟩ := hstep
    refine ⟨?_, ?_, ?_⟩
    · simp only [List.foldl_cons, h1, h2, e1]
    · simpa using e2
    · simp only [List.foldl_cons, List.length_cons]
      push_cast
      omega

/-- A run of successful steps only prepends its calls to the rest of the run. -/
theorem runSteps_append_ok (env : Env) (pre : List Step)
    (h : ∀ s ∈ pre, stepSucceeds env s) (rest : List Step) :
    runSteps env (pre ++ rest) =
      ⟨stepsOps pre ++ (runSteps env rest).calls,
       (runSteps env rest).stderrMsgs, (runSteps env rest).earlyExit⟩ := by
  induction pre with
  | nil => simp [stepsOps]
  | cons s pre ih =>
    have hs : stepSucceeds env s := h s (by simp)
    have hpre : ∀ t ∈ pre, stepSucceeds env t := fun t ht => h t (by simp [ht])
    have ih2 := ih hpre
    cases s with
    | checkedCall op =>
      simp only [stepSucceeds] at hs
      simp [runSteps, hs, ih2, stepsOps, stepOps]
    | buildStep =>
      simp only [stepSucceeds] at hs
      simp [runSteps, hs, ih2, stepsOps, stepOps]
    | uncheckedCall op =>
      simp [runSteps, ih2, stepsOps, stepOps]

/-- A run in which every step succeeds issues every call, prints nothing to
standard error, and never exits early. -/
theorem runSteps_all_ok (env : Env) (l : List Step)
    (h : ∀ s ∈ l, stepSucceeds env s) :
    runSteps env l = ⟨stepsOps l, [], none⟩ := by
  have := runSteps_append_ok env l h []
  simpa [runSteps] using this

/-! ## Claim theorems -/

/-- Claim C1: for the fixed size N = 512, the launch over the N x N index
space writes every output cell `(i, j)` with `i, j < N` exactly once (exactly
one work item targets offset `i * N + j`), and the value written to
`C[i * N + j]` equals the sum over `k` in `[0, N)` of
`A[i * N + k] * B[k * N + j]`, the triple-loop reference value; the matrix
entries are exact small integers, so the comparison is exact equality. -/
theorem matmul_kernel_cell_correct (A B : Nat → Int) (i j : Nat)
    (hi : i < MATRIX_SIZE) (hj : j < MATRIX_SIZE) :
    (∃! p : Nat × Nat, p.1 < MATRIX_SIZE ∧ p.2 < MATRIX_SIZE ∧
        cIndex p.1 MATRIX_SIZE p.2 = cIndex i MATRIX_SIZE j) ∧
    matmulWorkItem A B MATRIX_SIZE i j = referenceCell A B MATRIX_SIZE i j ∧
    bufferAfterLaunch A B MATRIX_SIZE (cIndex i MATRIX_SIZE j)
      = referenceCell A B MATRIX_SIZE i j := by
  simp only [MATRIX_SIZE] at hi hj
  refine ⟨?_, matmulWorkItem_eq_reference A B MATRIX_SIZE i j, ?_⟩
  · refine ⟨⟨i, j⟩, ⟨by simpa [MATRIX_SIZE] using hi, by simpa [MATRIX_SIZE] using hj, rfl⟩, ?_⟩
    rintro ⟨a, b⟩ ⟨ha, hb, hab⟩
    simp only [cIndex, MATRIX_SIZE] at ha hb hab
    simp only [Prod.mk.injEq]
    omega
  · have hlt : cIndex i MATRIX_SIZE j < MATRIX_SIZE * MATRIX_SIZE := by
      simp only [cIndex, MATRIX_SIZE]
      omega
    have hdiv : cIndex i MATRIX_SIZE j / MATRIX_SIZE = i := by
      simp only [cIndex, MATRIX_SIZE]
      omega
    have hmod : cIndex i MATRIX_SIZE j % MATRIX_SIZE = j := by
      simp only [cIndex, MATRIX_SIZE]
      omega
    rw [bufferAfterLaunch, if_pos hlt, hdiv, hmod]
    exact matmulWorkItem_eq_reference A B MATRIX_SIZE i j

/-- Witness for C1 at the concrete cell (0, 0) of the zero matrices. -/
theorem matmul_kernel_cell_correct_witness :
    (0 < MATRIX_SIZE) ∧
    ((∃! p : Nat × Nat, p.1 < MATRIX_SIZE ∧ p.2 < MATRIX_SIZE ∧
        cIndex p.1 MATRIX_SIZE p.2 = cIndex 0 MATRIX_SIZE 0) ∧
     matmulWorkItem zeroMat zeroMat MATRIX_SIZE 0 0
       = referenceCell zeroMat zeroMat MATRIX_SIZE 0 0 ∧
     bufferAfterLaunch zeroMat zeroMat MATRIX_SIZE (cIndex 0 MATRIX_SIZE 0)
       = referenceCell zeroMat zeroMat MATRIX_SIZE 0 0) :=
  ⟨by decide, matmul_kernel_cell_correct zeroMat zeroMat 0 0 (by decide) (by decide)⟩

/-- Claim C6: after the fill loop, every element of the two input matrices is
the value of `rand() % 100`, hence lies in `[0, 100)` (elements are naturals,
so nonnegativity is inherent); the values come from the modelled deterministic
(non-cryptographic) generator stream `r`. -/
theorem fill_values_in_range (r : Nat → Nat) (i : Nat) :
    fillA r i < 100 ∧ fillB r i < 100 := by
  simp only [fillA, fillB]
  exact ⟨Nat.mod_lt _ (by norm_num), Nat.mod_lt _ (by norm_num)⟩

/-- Claim C9: every element of A and B is an exact integer at most 99; the
kernel's accumulation performed with any rounding map that fixes the
nonnegative integers below 2 ^ 24 (as binary32 correct rounding does, every
such integer being exactly representable) equals the exact integer
accumulation, which equals the exact integer matrix product, is nonnegative,
and is bounded by 512 * 99 * 99 = 5018112 < 2 ^ 24 — so every addition and
multiplication in the accumulation is exact and the result has zero rounding
error. -/
theorem accumulation_exact_in_float32 (rnd : Int → Int)
    (hrnd : ∀ x : Int, 0 ≤ x → x < 2 ^ 24 → rnd x = x)
    (r : Nat → Nat) (row col : Nat) :
    (∀ idx : Nat, fillA r idx ≤ 99 ∧ fillB r idx ≤ 99) ∧
    fpFold rnd (intA r) (intB r) MATRIX_SIZE row col
      = matmulWorkItem (intA r) (intB r) MATRIX_SIZE row col ∧
    matmulWorkItem (intA r) (intB r) MATRIX_SIZE row col
      = referenceCell (intA r) (intB r) MATRIX_SIZE row col ∧
    0 ≤ matmulWorkItem (intA r) (intB r) MATRIX_SIZE row col ∧
    matmulWorkItem (intA r) (intB r) MATRIX_SIZE row col ≤ 5018112 ∧
    (5018112 : Int) < 2 ^ 24 := by
  have hfill : ∀ idx : Nat, fillA r idx ≤ 99 ∧ fillB r idx ≤ 99 := by
    intro idx
    have h1 : r (2 * idx) % 100 < 100 := Nat.mod_lt _ (by norm_num)
    have h2 : r (2 * idx + 1) % 100 < 100 := Nat.mod_lt _ (by norm_num)
    exact ⟨by simp only [fillA]; omega, by simp only [fillB]; omega⟩
  have hrnd2 : ∀ x : Int, 0 ≤ x → x ≤ 5018112 → rnd x = x := fun x h0 h1 =>
    hrnd x h0 (lt_of_le_of_lt h1 (by norm_num))
  have hf : ∀ k, 0 ≤ intA r (aIndex row MATRIX_SIZE k) * intB r (bIndex k MATRIX_SIZE col) ∧
      intA r (aIndex row MATRIX_SIZE k) * intB r (bIndex k MATRIX_SIZE col) ≤ 9801 := by
    intro k
    have ha0 : (0 : Int) ≤ intA r (aIndex row MATRIX_SIZE k) := Int.natCast_nonneg _
    have hb0 : (0 : Int) ≤ intB r (bIndex k MATRIX_SIZE col) := Int.natCast_nonneg _
    have ha1 : intA r (aIndex row MATRIX_SIZE k) ≤ 99 := by
      have := (hfill (aIndex row MATRIX_SIZE k)).1
      simp only [intA]
      exact_mod_cast this
    have hb1 : intB r (bIndex k MATRIX_SIZE col) ≤ 99 := by
      have := (hfill (bIndex k MATRIX_SIZE col)).2
      simp only [intB]
      exact_mod_cast this
    refine ⟨mul_nonneg ha0 hb0, ?_⟩
    calc intA r (aIndex row MATRIX_SIZE k) * intB r (bIndex k MATRIX_SIZE col)
        ≤ 99 * 99 := mul_le_mul ha1 hb1 hb0 (by norm_num)
      _ = 9801 := by norm_num
  have hmain := fpAccumAux rnd hrnd2
    (fun k => intA r (aIndex row MATRIX_SIZE k) * intB r (bIndex k MATRIX_SIZE col)) hf
    (List.range MATRIX_SIZE) 0 le_rfl
    (by norm_num [MATRIX_SIZE])
  obtain ⟨e1, e2, e3⟩ := hmain
  refine ⟨hfill, ?_, matmulWorkItem_eq_reference _ _ _ _ _, ?_, ?_, by norm_num⟩
  · simpa [fpFold, matmulWorkItem] using e1
  · simpa [matmulWorkItem] using e2
  · have := e3
    simp only [List.length_range, MATRIX_SIZE] at this
    simpa [matmulWorkItem, MATRIX_SIZE] using le_trans this (by norm_num)

/-- Witness for C9 with the identity rounding map, the all-zero rand stream,
and work item (0, 0). -/
theorem accumulation_exact_in_float32_witness :
    (∀ x : Int, 0 ≤ x → x < 2 ^ 24 → (fun y : Int => y) x = x) ∧
    ((∀ idx : Nat, fillA (fun _ => 0) idx ≤ 99 ∧ fillB (fun _ => 0) idx ≤ 99) ∧
     fpFold (fun y : Int => y) (intA (fun _ => 0)) (intB (fun _ => 0)) MATRIX_SIZE 0 0
       = matmulWorkItem (intA (fun _ => 0)) (intB (fun _ => 0)) MATRIX_SIZE 0 0 ∧
     matmulWorkItem (intA (fun _ => 0)) (intB (fun _ => 0)) MATRIX_SIZE 0 0
       = referenceCell (intA (fun _ => 0)) (intB (fun _ => 0)) MATRIX_SIZE 0 0 ∧
     0 ≤ matmulWorkItem (intA (fun _ => 0)) (intB (fun _ => 0)) MATRIX_SIZE 0 0 ∧
     matmulWorkItem (intA (fun _ => 0)) (intB (fun _ => 0)) MATRIX_SIZE 0 0 ≤ 5018112 ∧
     (5018112 : Int) < 2 ^ 24) :=
  ⟨fun _ _ _ => rfl,
   accumulation_exact_in_float32 (fun y => y) (fun _ _ _ => rfl) (fun _ => 0) 0 0⟩

/-- Claim C10: for every work item (row, col) of the 512 x 512 global index
space and every loop index k < 512, the offsets `row * N + k`, `k * N + col`
and `row * N + col` used by the kernel all lie inside the `N * N` buffers, and
the index arithmetic never exceeds 262143, far below 2 ^ 31, so the kernel's
32-bit `int` arithmetic cannot overflow. -/
theorem kernel_indices_in_bounds (row col k : Nat)
    (hrow : row < MATRIX_SIZE) (hcol : col < MATRIX_SIZE) (hk : k < MATRIX_SIZE) :
    aIndex row MATRIX_SIZE k < MATRIX_SIZE * MATRIX_SIZE ∧
    bIndex k MATRIX_SIZE col < MATRIX_SIZE * MATRIX_SIZE ∧
    cIndex row MATRIX_SIZE col < MATRIX_SIZE * MATRIX_SIZE ∧
    aIndex row MATRIX_SIZE k ≤ 262143 ∧
    bIndex k MATRIX_SIZE col ≤ 262143 ∧
    cIndex row MATRIX_SIZE col ≤ 262143 ∧
    (262143 : Nat) < 2 ^ 31 := by
  simp only [aIndex, bIndex, cIndex, MATRIX_SIZE] at *
  refine ⟨?_, ?_, ?_, ?_, ?_, ?_, by norm_num⟩ <;> omega

set_option maxRecDepth 8192 in
/-- Claim C2 counterexample: in an environment where `clBuildProgram` fails
(status -11), the process does not print a line of the form
`Error during operation '<name>': <code>` — the sole standard-error message
begins with `CL Compilation failed:` instead — and it does make a further API
call after the failing one, namely `clGetProgramBuildInfo`; so the claim's
uniform failure behavior does not hold for every compute-API call. -/
theorem build_failure_breaks_uniform_error_format :
    (run envBuildFail zeroMat zeroMat).stderrMsgs
      = [buildFailMsg "use of undeclared identifier"] ∧
    (buildFailMsg "use of undeclared identifier").take 22 ≠ "Error during operation" ∧
    ApiOp.getProgramBuildInfo ∈ (run envBuildFail zeroMat zeroMat).calls ∧
    (run envBuildFail zeroMat zeroMat).exitCode = 1 := by
  refine ⟨rfl, by decide, by decide, rfl⟩

/-- Claim C2 (amended): for every checkError-guarded API call — every checked
call except the specially handled `clBuildProgram` — if all preceding steps
succeed and the call returns a non-success status, the process prints exactly
the one line `Error during operation '<name>': <code>` to standard error,
prints nothing to standard output, exits with code 1, and issues no further
API call; in particular a platform-enumeration failure prints the
`Getting platform` error and stops immediately. -/
theorem checked_call_failure_behavior (env : Env) (A B : Nat → Int)
    (pre post : List Step) (op : ApiOp)
    (hsplit : clProgram = pre ++ Step.checkedCall op :: post)
    (hpre : ∀ s ∈ pre, stepSucceeds env s)
    (hfail : env.status op ≠ 0) :
    run env A B = ⟨stepsOps pre ++ [op], [errLine op (env.status op)], [], 1⟩ := by
  have h1 : runSteps env clProgram =
      ⟨stepsOps pre ++ [op], [errLine op (env.status op)], some 1⟩ := by
    rw [hsplit, runSteps_append_ok env pre hpre]
    simp [runSteps, hfail]
  simp [run, h1]

/-- Witness for C2 (amended): platform enumeration fails with -1001; the run
makes exactly one API call, prints exactly the `Getting platform` error line,
and exits with code 1. -/
theorem checked_call_failure_behavior_witness :
    envPlatformFail.status ApiOp.getPlatformIDs ≠ 0 ∧
    run envPlatformFail zeroMat zeroMat =
      ⟨[ApiOp.getPlatformIDs], [errLine ApiOp.getPlatformIDs (-1001)], [], 1⟩ ∧
    errLine ApiOp.getPlatformIDs (-1001)
      = "Error during operation \x27Getting platform\x27: -1001" := by
  refine ⟨by decide, ?_, by decide⟩
  exact checked_call_failure_behavior envPlatformFail zeroMat zeroMat []
    (([Step.checkedCall ApiOp.getDeviceIDs, Step.checkedCall ApiOp.createContext,
       Step.checkedCall ApiOp.createCommandQueue, Step.checkedCall ApiOp.createBufferA,
       Step.checkedCall ApiOp.createBufferB, Step.checkedCall ApiOp.createBufferC,
       Step.checkedCall ApiOp.writeBufferA, Step.checkedCall ApiOp.writeBufferB,
       Step.checkedCall ApiOp.createProgramWithSource] : List Step)
      ++ Step.buildStep :: postBuildSteps)
    ApiOp.getPlatformIDs (by decide) (by simp) (by decide)

/-- Claim C3 counterexample: the program never calls `srand`, and ISO C makes
the unseeded `rand` stream the same in every execution, so two executions with
no external state varying produce equal — not different — printed output. -/
theorem unseeded_runs_produce_equal_output :
    firstExecution = secondExecution ∧
    firstExecution.stdoutRows = secondExecution.stdoutRows :=
  ⟨rfl, rfl⟩

/-- Claim C3 (amended): the fill uses an unseeded generator, which ISO C makes
behave as if seeded with 1, so the program's output is reproducible: two
executions with no external state varying print identical matrices, complete
normally, and both print exactly the block determined by the default rand
stream. -/
theorem run_output_reproducible :
    firstExecution = secondExecution ∧
    firstExecution.exitCode = 0 ∧
    firstExecution.stdoutRows = printedBlock (intA cRand) (intB cRand) :=
  ⟨rfl, rfl, rfl⟩

/-- Claim C4 counterexample: the blocking arguments actually passed by the
four enqueue calls are `CL_TRUE`, `CL_TRUE`, none (the kernel-launch API has
no blocking parameter and returns without waiting), `CL_TRUE` — not four
blocking operations as claimed. -/
theorem kernel_launch_not_blocking :
    hostEnqueues.map blockingArg = [some true, some true, none, some true] ∧
    hostEnqueues.map blockingArg ≠ List.replicate 4 (some true) ∧
    blockingArg EnqueueKind.ndrangeKernel = none := by
  decide

/-- Claim C4 (amended): the two host-to-device transfers and the
device-to-host transfer are issued as blocking operations (`CL_TRUE`), while
the kernel launch is issued asynchronously (its API has no blocking
parameter); the command queue is created with properties 0 and is therefore
in-order, so the kernel has completed before the subsequent blocking read
returns. -/
theorem enqueue_blocking_flags :
    blockingArg EnqueueKind.writeA = some true ∧
    blockingArg EnqueueKind.writeB = some true ∧
    blockingArg EnqueueKind.readC = some true ∧
    blockingArg EnqueueKind.ndrangeKernel = none ∧
    queueProperties = 0 ∧
    hostEnqueues = [EnqueueKind.writeA, EnqueueKind.writeB,
      EnqueueKind.ndrangeKernel, EnqueueKind.readC] := by
  decide

/-- Claim C5 counterexample: on the normal-completion path the released
resources are acquired in the order context, queue, buffer A, buffer B,
buffer C, program, kernel, but released in the order buffer A, buffer B,
buffer C, kernel, program, queue, context — which is not the reverse of the
acquisition order (the reverse would begin with the kernel, not buffer A). -/
theorem release_not_reverse_acquisition :
    successCalls.filterMap acquiresRes =
      [Res.context, Res.queue, Res.bufA, Res.bufB, Res.bufC, Res.program, Res.kernel] ∧
    successCalls.filterMap releasesRes =
      [Res.bufA, Res.bufB, Res.bufC, Res.kernel, Res.program, Res.queue, Res.context] ∧
    successCalls.filterMap releasesRes ≠ (successCalls.filterMap acquiresRes).reverse := by
  decide

/-- Claim C5 (amended): on the normal-completion path every API resource is
released before process exit in dependency order — the buffers (in their
acquisition order A, B, C), then the kernel, then the program, then the queue,
then the context — the host buffers are freed after all releases, and no
resource is used by any API call after the call that releases it. -/
theorem cleanup_dependency_order :
    successCalls =
      [ApiOp.getPlatformIDs, ApiOp.getDeviceIDs, ApiOp.createContext,
       ApiOp.createCommandQueue, ApiOp.createBufferA, ApiOp.createBufferB,
       ApiOp.createBufferC, ApiOp.writeBufferA, ApiOp.writeBufferB,
       ApiOp.createProgramWithSource, ApiOp.buildProgram, ApiOp.createKernel,
       ApiOp.setKernelArg0, ApiOp.setKernelArg1, ApiOp.setKernelArg2,
       ApiOp.setKernelArg3, ApiOp.enqueueNDRangeKernel, ApiOp.readBufferC,
       ApiOp.releaseBufferA, ApiOp.releaseBufferB, ApiOp.releaseBufferC,
       ApiOp.releaseKernel, ApiOp.releaseProgram, ApiOp.releaseQueue,
       ApiOp.releaseContext, ApiOp.freeA, ApiOp.freeB, ApiOp.freeC] ∧
    successCalls.filterMap releasesRes =
      [Res.bufA, Res.bufB, Res.bufC, Res.kernel, Res.program, Res.queue, Res.context] ∧
    (∀ i : Fin successCalls.length, ∀ j : Fin successCalls.length,
      ∀ res ∈ usesRes (successCalls.get i),
        releasesRes (successCalls.get j) = some res → (i : Nat) < (j : Nat)) := by
  decide

/-- Claim C7: if all steps before the build succeed and `clBuildProgram`
returns a non-success status, the process queries the build log (one
`clGetProgramBuildInfo` call), prints the compiler's build log to standard
error, prints nothing to standard output, and exits with code 1; no
kernel-creation or later API call is made on that path. -/
theorem build_failure_prints_log_and_aborts (env : Env) (A B : Nat → Int)
    (hpre : ∀ s ∈ preBuildSteps, stepSucceeds env s)
    (hfail : env.status ApiOp.buildProgram ≠ 0) :
    run env A B =
      ⟨stepsOps preBuildSteps ++ [ApiOp.buildProgram, ApiOp.getProgramBuildInfo],
       [buildFailMsg env.buildLog], [], 1⟩ ∧
    ApiOp.createKernel ∉ (run env A B).calls := by
  have h1 : runSteps env clProgram =
      ⟨stepsOps preBuildSteps ++ [ApiOp.buildProgram, ApiOp.getProgramBuildInfo],
       [buildFailMsg env.buildLog], some 1⟩ := by
    simp only [clProgram]
    rw [runSteps_append_ok env preBuildSteps hpre]
    simp [runSteps, hfail]
  have h2 : run env A B =
      ⟨stepsOps preBuildSteps ++ [ApiOp.buildProgram, ApiOp.getProgramBuildInfo],
       [buildFailMsg env.buildLog], [], 1⟩ := by
    simp [run, h1]
  refine ⟨h2, ?_⟩
  have h3 : (run env A B).calls
      = stepsOps preBuildSteps ++ [ApiOp.buildProgram, ApiOp.getProgramBuildInfo] := by
    rw [h2]
  rw [h3]
  decide

/-- Witness for C7: build fails with -11 and the log
`use of undeclared identifier`; the run stops right after querying the log,
having created no kernel. -/
theorem build_failure_prints_log_and_aborts_witness :
    (∀ s ∈ preBuildSteps, stepSucceeds envBuildFail s) ∧
    envBuildFail.status ApiOp.buildProgram ≠ 0 ∧
    (run envBuildFail zeroMat zeroMat =
      ⟨stepsOps preBuildSteps ++ [ApiOp.buildProgram, ApiOp.getProgramBuildInfo],
       [buildFailMsg "use of undeclared identifier"], [], 1⟩ ∧
     ApiOp.createKernel ∉ (run envBuildFail zeroMat zeroMat).calls) := by
  refine ⟨by decide, by decide, ?_⟩
  exact build_failure_prints_log_and_aborts envBuildFail zeroMat zeroMat
    (by decide) (by decide)

/-- Claim C8: when every API call succeeds, the program prints exactly 10
rows of exactly 10 values each to standard output — row `i` holding the
values `C[i * N + j]` for `j` in `[0, 10)` of the result matrix read back
from the device — and exits with code 0. -/
theorem success_prints_ten_by_ten (env : Env) (A B : Nat → Int)
    (henv : ∀ op : ApiOp, env.status op = 0) :
    run env A B = ⟨stepsOps clProgram, [], printedBlock A B, 0⟩ ∧
    (printedBlock A B).length = 10 ∧
    (∀ rowvals ∈ printedBlock A B, rowvals.length = 10) ∧
    (∀ i j : Nat, i < 10 → j < 10 →
      ((printedBlock A B)[i]?).map (fun rowvals => rowvals[j]?)
        = some (some (bufferAfterLaunch A B MATRIX_SIZE (cIndex i MATRIX_SIZE j)))) := by
  have hall : ∀ s ∈ clProgram, stepSucceeds env s := by
    intro s _
    cases s <;> simp [stepSucceeds, henv]
  have h1 := runSteps_all_ok env clProgram hall
  refine ⟨by simp [run, h1], by simp [printedBlock], ?_, ?_⟩
  · intro rowvals hmem
    simp only [printedBlock, List.mem_map] at hmem
    obtain ⟨i, _, rfl⟩ := hmem
    simp
  · intro i j hi hj
    simp [printedBlock, List.getElem?_map, List.getElem?_range, hi, hj]

/-- Witness for C8: the all-success environment with zero input matrices. -/
theorem success_prints_ten_by_ten_witness :
    (∀ op : ApiOp, allOkEnv.status op = 0) ∧
    (run allOkEnv zeroMat zeroMat = ⟨stepsOps clProgram, [], printedBlock zeroMat zeroMat, 0⟩ ∧
     (printedBlock zeroMat zeroMat).length = 10 ∧
     (∀ rowvals ∈ printedBlock zeroMat zeroMat, rowvals.length = 10) ∧
     (∀ i j : Nat, i < 10 → j < 10 →
       ((printedBlock zeroMat zeroMat)[i]?).map (fun rowvals => rowvals[j]?)
         = some (some (bufferAfterLaunch zeroMat zeroMat MATRIX_SIZE
             (cIndex i MATRIX_SIZE j))))) :=
  ⟨fun _ => rfl, success_prints_ten_by_ten allOkEnv zeroMat zeroMat (fun _ => rfl)⟩

/-- Witness for C10 at the extreme work item (511, 511) with k = 511. -/
theorem kernel_indices_in_bounds_witness :
    (511 < MATRIX_SIZE) ∧
    (aIndex 511 MATRIX_SIZE 511 < MATRIX_SIZE * MATRIX_SIZE ∧
     bIndex 511 MATRIX_SIZE 511 < MATRIX_SIZE * MATRIX_SIZE ∧
     cIndex 511 MATRIX_SIZE 511 < MATRIX_SIZE * MATRIX_SIZE ∧
     aIndex 511 MATRIX_SIZE 511 ≤ 262143 ∧
     bIndex 511 MATRIX_SIZE 511 ≤ 262143 ∧
     cIndex 511 MATRIX_SIZE 511 ≤ 262143 ∧
     (262143 : Nat) < 2 ^ 31) :=
  ⟨by decide, kernel_indices_in_bounds 511 511 511 (by decide) (by decide) (by decide)⟩

end OpenCLMatmul
